import Mathlib

/-!
Verification of `src/assets/icons/render_image.py`, an 8-line Blender
automation script:

  (the bpy and os modules are imported, then)
  xy = os.environ['XY']
  for scene in bpy.data.scenes:
      scene.render.resolution_x = int(xy)
      scene.render.resolution_y = int(xy)
      scene.render.filepath = 'assets/icons/hicolor/%sx%s/apps/%s.png'%(xy, xy, os.environ['APP_ID'])
      scene.frame_end = 1
      bpy.ops.render.render(write_still=True)

We embed the script shallowly: the environment is a pair of optional
strings, the host's scene collection is a list of records, Python's
`int(...)` string parsing is modelled faithfully (whitespace stripping,
optional sign, digit groups separated by single underscores), and
statement-by-statement execution is explicit, recording the partially
mutated scene list at the point an exception is raised and the trace of
render invocations with the scene configuration each one sees.
-/

namespace RenderImage

/-- One host scene.  The script touches exactly the fields
`resolution_x`, `resolution_y`, `filepath` (both on `scene.render`) and
`frame_end`; every other piece of host-owned scene state is abstracted
into the opaque field `other : α`. -/
structure Scene (α : Type) where
  resolution_x : Int
  resolution_y : Int
  filepath : String
  frame_end : Int
  other : α
deriving DecidableEq

/-- The process environment as seen by the script: the two variables it
reads, each possibly absent. -/
structure Env where
  XY : Option String
  APP_ID : Option String
deriving DecidableEq

/-- The configuration a single `bpy.ops.render.render(write_still=True)`
call sees: the current values of the four fields the script writes. -/
structure RenderEvent where
  resolution_x : Int
  resolution_y : Int
  filepath : String
  frame_end : Int
deriving DecidableEq

/-- The unhandled Python exceptions the script can raise: `KeyError`
from `os.environ[...]` on a missing variable, `ValueError` from
`int(...)` on an unparseable string. -/
inductive PyError where
  | keyError (key : String)
  | valueError
deriving DecidableEq

/-- Outcome of running the script: either it terminates normally or an
exception escapes.  Both carry the scene collection (with all mutations
performed up to that point) and the trace of render invocations made. -/
inductive RunResult (α : Type) where
  | ok (scenes : List (Scene α)) (events : List RenderEvent)
  | err (e : PyError) (scenes : List (Scene α)) (events : List RenderEvent)
deriving DecidableEq

/-- The scene collection after the run (mutations applied up to the
point of an exception, if one was raised).  The collection itself is
never grown or shrunk by the script. -/
def RunResult.scenes {α : Type} : RunResult α → List (Scene α)
  | .ok scs _ => scs
  | .err _ scs _ => scs

/-- The trace of render invocations the run performed, in order. -/
def RunResult.events {α : Type} : RunResult α → List RenderEvent
  | .ok _ evs => evs
  | .err _ _ evs => evs

/-- Whether the run ended in an unhandled exception. -/
def RunResult.isErr {α : Type} : RunResult α → Bool
  | .ok _ _ => false
  | .err _ _ _ => true

/-- Characters stripped by Python's `int(str)` before parsing (the ASCII
whitespace characters). -/
def pyWs (c : Char) : Bool :=
  c == ' ' || c == '\t' || c == '\n' || c == '\x0d' || c == '\x0b' || c == '\x0c'

/-- Digit run of a Python integer literal after its first digit: further
digits, with single underscores allowed only between two digits.
`acc` is the value of the digits consumed so far. -/
def pyDigits : List Char → Nat → Option Nat
  | [], acc => some acc
  | '_' :: c :: rest, acc =>
      if c.isDigit then pyDigits rest (acc * 10 + (c.toNat - 48)) else none
  | ['_'], _ => none
  | c :: rest, acc =>
      if c.isDigit then pyDigits rest (acc * 10 + (c.toNat - 48)) else none

/-- Unsigned part of Python `int(str)`: a non-empty digit sequence, not
starting or ending with an underscore. -/
def pyIntCore (cs : List Char) : Option Nat :=
  match cs with
  | [] => none
  | c :: rest => if c.isDigit then pyDigits rest (c.toNat - 48) else none

/-- Python's `int(s)` on a string: strip surrounding whitespace, read an
optional single sign, then an underscore-grouped digit sequence.
Returns `none` where CPython raises `ValueError`. -/
def pyInt (s : String) : Option Int :=
  let cs := ((s.toList.dropWhile pyWs).reverse.dropWhile pyWs).reverse
  match cs with
  | '+' :: rest => (pyIntCore rest).map Int.ofNat
  | '-' :: rest => (pyIntCore rest).map (fun n => -(n : Int))
  | rest => (pyIntCore rest).map Int.ofNat

/-- The string the script assigns to `scene.render.filepath`:
`'assets/icons/hicolor/%sx%s/apps/%s.png' % (xy, xy, app_id)`, with both
substitutions verbatim (`%s` on a `str`). -/
def computePath (xy appId : String) : String :=
  "assets/icons/hicolor/" ++ xy ++ "x" ++ xy ++ "/apps/" ++ appId ++ ".png"

/-- A scene after the four assignments of one loop iteration with parsed
resolution `n` and output path `path`. -/
def mutatedScene {α : Type} (n : Int) (path : String) (sc : Scene α) : Scene α :=
  { sc with resolution_x := n, resolution_y := n, filepath := path, frame_end := 1 }

/-- The render-invocation configuration produced by one successful loop
iteration. -/
def eventOf (n : Int) (path : String) : RenderEvent :=
  ⟨n, n, path, 1⟩

/-- One iteration of the `for scene in bpy.data.scenes` loop body, for
the scene `sc`.  `int(xy)` is evaluated before the first assignment;
`os.environ['APP_ID']` is evaluated before `filepath` is assigned.  On
an exception the scene is returned with the mutations made so far. -/
def loopBody {α : Type} (xy : String) (appId : Option String) (sc : Scene α) :
    Except (PyError × Scene α) (Scene α × RenderEvent) :=
  match pyInt xy with
  | none => .error (.valueError, sc)
  | some n =>
    let sc1 := { sc with resolution_x := n }
    let sc2 := { sc1 with resolution_y := n }
    match appId with
    | none => .error (.keyError "APP_ID", sc2)
    | some app =>
      let sc3 := { sc2 with filepath := computePath xy app }
      let sc4 := { sc3 with frame_end := 1 }
      .ok (sc4, ⟨sc4.resolution_x, sc4.resolution_y, sc4.filepath, sc4.frame_end⟩)

/-- The loop `for scene in bpy.data.scenes`, run over the collection in
order: each iteration mutates its scene and renders; an exception stops
the loop, leaving the remaining scenes untouched. -/
def runScenes {α : Type} (xy : String) (appId : Option String) :
    List (Scene α) → RunResult α
  | [] => .ok [] []
  | sc :: rest =>
    match loopBody xy appId sc with
    | .error (e, sc1) => .err e (sc1 :: rest) []
    | .ok (sc1, ev) =>
      match runScenes xy appId rest with
      | .ok scs evs => .ok (sc1 :: scs) (ev :: evs)
      | .err e scs evs => .err e (sc1 :: scs) (ev :: evs)

/-- The whole script: `os.environ['XY']` is read first (raising
`KeyError` before the loop when absent), then the loop runs over the
host's scene collection. -/
def runScript {α : Type} (env : Env) (scenes : List (Scene α)) : RunResult α :=
  match env.XY with
  | none => .err (.keyError "XY") scenes []
  | some xy => runScenes xy env.APP_ID scenes

/-- When `XY` parses and `APP_ID` is present, one loop iteration
performs all four assignments and renders once. -/
lemma loopBody_valid {α : Type} (xy app : String) (n : Int)
    (hxy : pyInt xy = some n) (sc : Scene α) :
    loopBody xy (some app) sc =
      .ok (mutatedScene n (computePath xy app) sc,
           eventOf n (computePath xy app)) := by
  simp [loopBody, hxy, mutatedScene, eventOf]

/-- When `XY` parses and `APP_ID` is present, the loop terminates
normally: every scene ends up with the four fields set and one render
invocation per scene occurs, in collection order, all with the same
configuration. -/
lemma runScenes_valid {α : Type} (xy app : String) (n : Int)
    (hxy : pyInt xy = some n) (scenes : List (Scene α)) :
    runScenes xy (some app) scenes =
      .ok (scenes.map (mutatedScene n (computePath xy app)))
          (scenes.map fun _ => eventOf n (computePath xy app)) := by
  induction scenes with
  | nil => rfl
  | cons sc rest ih =>
      simp [runScenes, loopBody_valid xy app n hxy, ih]

/-- When `XY` does not parse, the first loop iteration raises
`ValueError` from `int(xy)` before mutating anything. -/
lemma runScenes_valueError {α : Type} (xy : String) (hxy : pyInt xy = none)
    (appId : Option String) (sc : Scene α) (rest : List (Scene α)) :
    runScenes xy appId (sc :: rest) = .err .valueError (sc :: rest) [] := by
  simp [runScenes, loopBody, hxy]

/-- When `XY` parses but `APP_ID` is absent, the first iteration sets
the two resolution fields and then raises `KeyError` while building the
path, before `filepath` and `frame_end` are assigned and before any
render invocation. -/
lemma runScenes_keyError {α : Type} (xy : String) (n : Int)
    (hxy : pyInt xy = some n) (sc : Scene α) (rest : List (Scene α)) :
    runScenes xy none (sc :: rest) =
      .err (.keyError "APP_ID")
        ({ sc with resolution_x := n, resolution_y := n } :: rest) [] := by
  simp [runScenes, loopBody, hxy]

/-- C1: for every positive-integer string `XY` and non-empty `APP_ID`,
the output path the script computes and assigns to each scene's
`filepath` field equals exactly
`assets/icons/hicolor/{XY}x{XY}/apps/{APP_ID}.png`, with `XY` and
`APP_ID` substituted verbatim. -/
theorem c1_filepath_pattern (xy app : String) (n : Int)
    (hxy : pyInt xy = some n) (hn : 0 < n) (happ : app ≠ "")
    {α : Type} (scenes : List (Scene α)) :
    ∀ sc ∈ (runScript ⟨some xy, some app⟩ scenes).scenes,
      sc.filepath =
        "assets/icons/hicolor/" ++ xy ++ "x" ++ xy ++ "/apps/" ++ app ++ ".png" := by
  intro sc hsc
  simp only [runScript, runScenes_valid xy app n hxy, RunResult.scenes,
    List.mem_map] at hsc
  obtain ⟨b, _, rfl⟩ := hsc
  rfl

/-- Witness for C1 at `XY = "48"`, `APP_ID = "org.example.App"` on a
one-scene collection. -/
theorem c1_filepath_pattern_witness :
    pyInt "48" = some 48 ∧ (0 : Int) < 48 ∧ "org.example.App" ≠ "" ∧
    ∀ sc ∈ (runScript ⟨some "48", some "org.example.App"⟩
        [(⟨0, 0, "", 250, 7⟩ : Scene Nat)]).scenes,
      sc.filepath =
        "assets/icons/hicolor/" ++ "48" ++ "x" ++ "48" ++ "/apps/" ++
          "org.example.App" ++ ".png" :=
  ⟨by decide, by decide, by decide,
    c1_filepath_pattern "48" "org.example.App" 48 (by decide) (by decide)
      (by decide) [(⟨0, 0, "", 250, 7⟩ : Scene Nat)]⟩

/-- C2 counterexample: with `XY = "abc"` (present but non-numeric),
`APP_ID` present, and an empty host scene collection, the script
terminates normally instead of failing, so the claim as stated is
false. -/
theorem c2_counterexample :
    ¬ (∀ (env : Env) (scenes : List (Scene Nat)),
        (env.XY = none ∨ ∃ xy, env.XY = some xy ∧ pyInt xy = none) →
        (runScript env scenes).isErr = true) := by
  intro h
  exact absurd (h ⟨some "abc", some "x"⟩ []
    (Or.inr ⟨"abc", rfl, by decide⟩)) (by decide)

/-- C2 (amended): if `XY` is absent or non-numeric, zero render
invocations are attempted; moreover the process fails (raises an
unhandled error) whenever `XY` is absent, or `XY` is non-numeric and the
scene collection is non-empty.  (With an empty collection and a
non-numeric `XY` the loop body never runs, so the script terminates
normally.) -/
theorem c2_xy_invalid_amended (env : Env) {α : Type}
    (scenes : List (Scene α))
    (h : env.XY = none ∨ ∃ xy, env.XY = some xy ∧ pyInt xy = none) :
    (runScript env scenes).events = [] ∧
    ((env.XY = none ∨ scenes ≠ []) → (runScript env scenes).isErr = true) := by
  rcases h with h | ⟨xy, hxy, hparse⟩
  · simp [runScript, h, RunResult.events, RunResult.isErr]
  · cases scenes with
    | nil =>
        refine ⟨by simp [runScript, hxy, runScenes, RunResult.events], ?_⟩
        rintro (h2 | h2)
        · rw [hxy] at h2; cases h2
        · exact absurd rfl h2
    | cons sc rest =>
        refine ⟨?_, fun _ => ?_⟩ <;>
          simp [runScript, hxy, runScenes_valueError xy hparse,
            RunResult.events, RunResult.isErr]

/-- Witness for C2 (amended) at `XY = "abc"`, `APP_ID = "x"` on a
one-scene collection. -/
theorem c2_xy_invalid_amended_witness :
    ((⟨some "abc", some "x"⟩ : Env).XY = none ∨
      ∃ xy, (⟨some "abc", some "x"⟩ : Env).XY = some xy ∧ pyInt xy = none) ∧
    ((runScript (⟨some "abc", some "x"⟩ : Env)
        [(⟨0, 0, "", 250, 7⟩ : Scene Nat)]).events = [] ∧
      (((⟨some "abc", some "x"⟩ : Env).XY = none ∨
          [(⟨0, 0, "", 250, 7⟩ : Scene Nat)] ≠ []) →
        (runScript (⟨some "abc", some "x"⟩ : Env)
          [(⟨0, 0, "", 250, 7⟩ : Scene Nat)]).isErr = true)) :=
  ⟨Or.inr ⟨"abc", rfl, by decide⟩,
    c2_xy_invalid_amended ⟨some "abc", some "x"⟩
      [(⟨0, 0, "", 250, 7⟩ : Scene Nat)] (Or.inr ⟨"abc", rfl, by decide⟩)⟩

/-- C3 counterexample: with `APP_ID` absent, `XY = "48"`, and an empty
host scene collection, the script terminates normally instead of
failing, so the claim as stated is false. -/
theorem c3_counterexample :
    ¬ (∀ (env : Env) (scenes : List (Scene Nat)),
        env.APP_ID = none → (runScript env scenes).isErr = true) := by
  intro h
  exact absurd (h ⟨some "48", none⟩ [] rfl) (by decide)

/-- C3 (amended): if `APP_ID` is absent, zero render invocations are
attempted; moreover the process fails (raises an unhandled error)
whenever `XY` is also absent or the scene collection is non-empty.
(With an empty collection and `XY` present the loop body never runs, so
`os.environ['APP_ID']` is never evaluated and the script terminates
normally.) -/
theorem c3_app_id_missing_amended (env : Env) {α : Type}
    (scenes : List (Scene α)) (h : env.APP_ID = none) :
    (runScript env scenes).events = [] ∧
    ((env.XY = none ∨ scenes ≠ []) → (runScript env scenes).isErr = true) := by
  cases hXY : env.XY with
  | none => simp [runScript, hXY, RunResult.events, RunResult.isErr]
  | some xy =>
    cases scenes with
    | nil =>
        refine ⟨by simp [runScript, hXY, runScenes, RunResult.events], ?_⟩
        rintro (h2 | h2)
        · simp at h2
        · exact absurd rfl h2
    | cons sc rest =>
        cases hp : pyInt xy with
        | none =>
            refine ⟨?_, fun _ => ?_⟩ <;>
              simp [runScript, hXY, runScenes_valueError xy hp,
                RunResult.events, RunResult.isErr]
        | some n =>
            refine ⟨?_, fun _ => ?_⟩ <;>
              simp [runScript, hXY, h, runScenes_keyError xy n hp,
                RunResult.events, RunResult.isErr]

/-- Witness for C3 (amended) at `XY = "48"`, `APP_ID` absent, on a
one-scene collection. -/
theorem c3_app_id_missing_amended_witness :
    (⟨some "48", none⟩ : Env).APP_ID = none ∧
    ((runScript (⟨some "48", none⟩ : Env)
        [(⟨0, 0, "", 250, 7⟩ : Scene Nat)]).events = [] ∧
      (((⟨some "48", none⟩ : Env).XY = none ∨
          [(⟨0, 0, "", 250, 7⟩ : Scene Nat)] ≠ []) →
        (runScript (⟨some "48", none⟩ : Env)
          [(⟨0, 0, "", 250, 7⟩ : Scene Nat)]).isErr = true)) :=
  ⟨rfl, c3_app_id_missing_amended ⟨some "48", none⟩
    [(⟨0, 0, "", 250, 7⟩ : Scene Nat)] rfl⟩

/-- C4 counterexample: `XY = "0"` does not parse as a positive integer,
yet with `APP_ID` present and a non-empty scene collection the script
does not fail: `int("0")` succeeds and the run proceeds (and renders)
with resolution 0.  The claim as stated is therefore false. -/
theorem c4_counterexample :
    ¬ (∀ (xy app : String) (scenes : List (Scene Nat)),
        (¬ ∃ n : Int, pyInt xy = some n ∧ 0 < n) →
        scenes ≠ [] →
        (runScript ⟨some xy, some app⟩ scenes).isErr = true) := by
  intro h
  refine absurd (h "0" "a" [⟨0, 0, "", 250, 7⟩] ?_ (by simp)) (by decide)
  rintro ⟨n, hn, hpos⟩
  have h0 : pyInt "0" = some 0 := by decide
  rw [h0] at hn
  injection hn with hn
  omega

/-- C4 (amended): with `APP_ID` present and a non-empty scene
collection, the script fails exactly when `XY` does not parse as a
Python integer at all; strings parsing to zero or a negative integer
are accepted, and the run proceeds to render every scene with that
non-positive resolution instead of failing. -/
theorem c4_xy_parse_amended (xy app : String) {α : Type}
    (scenes : List (Scene α)) (hne : scenes ≠ []) :
    ((runScript ⟨some xy, some app⟩ scenes).isErr = true ↔ pyInt xy = none) ∧
    (∀ n : Int, pyInt xy = some n →
      (runScript ⟨some xy, some app⟩ scenes).events =
        scenes.map fun _ => eventOf n (computePath xy app)) := by
  constructor
  · cases scenes with
    | nil => exact absurd rfl hne
    | cons sc rest =>
        cases hp : pyInt xy with
        | none =>
            simp [runScript, runScenes_valueError xy hp, RunResult.isErr]
        | some n =>
            simp [runScript, runScenes_valid xy app n hp, RunResult.isErr]
  · intro n hn
    simp [runScript, runScenes_valid xy app n hn, RunResult.events]

/-- Witness for C4 (amended) at `XY = "0"`, `APP_ID = "a"` on a
one-scene collection. -/
theorem c4_xy_parse_amended_witness :
    [(⟨0, 0, "", 250, 7⟩ : Scene Nat)] ≠ [] ∧
    (((runScript ⟨some "0", some "a"⟩
        [(⟨0, 0, "", 250, 7⟩ : Scene Nat)]).isErr = true ↔ pyInt "0" = none) ∧
      (∀ n : Int, pyInt "0" = some n →
        (runScript ⟨some "0", some "a"⟩
            [(⟨0, 0, "", 250, 7⟩ : Scene Nat)]).events =
          [(⟨0, 0, "", 250, 7⟩ : Scene Nat)].map
            fun _ => eventOf n (computePath "0" "a"))) :=
  ⟨by decide, c4_xy_parse_amended "0" "a"
    [(⟨0, 0, "", 250, 7⟩ : Scene Nat)] (by decide)⟩

/-- C5: with `XY` numeric and `APP_ID` present, a collection of N scenes
yields exactly N render invocations, one per scene in collection order,
each configured with the same computed output path (so the render
events are indistinguishable and later writes target the same file). -/
theorem c5_render_per_scene (xy app : String) (n : Int)
    (hxy : pyInt xy = some n) {α : Type} (scenes : List (Scene α)) :
    (runScript ⟨some xy, some app⟩ scenes).events =
      (scenes.map fun _ => eventOf n (computePath xy app)) ∧
    (runScript ⟨some xy, some app⟩ scenes).events.length = scenes.length ∧
    ∀ ev ∈ (runScript ⟨some xy, some app⟩ scenes).events,
      ev.filepath = computePath xy app := by
  have h := runScenes_valid (α := α) xy app n hxy scenes
  refine ⟨?_, ?_, ?_⟩ <;>
    simp [runScript, h, RunResult.events, eventOf]

/-- Witness for C5 at `XY = "48"`, `APP_ID = "org.example.App"` on a
two-scene collection (the spec's N = 2 scenario). -/
theorem c5_render_per_scene_witness :
    pyInt "48" = some 48 ∧
    ((runScript ⟨some "48", some "org.example.App"⟩
        [(⟨0, 0, "", 250, 7⟩ : Scene Nat), ⟨1, 2, "old", 9, 8⟩]).events =
      ([(⟨0, 0, "", 250, 7⟩ : Scene Nat), ⟨1, 2, "old", 9, 8⟩].map
        fun _ => eventOf 48 (computePath "48" "org.example.App")) ∧
      (runScript ⟨some "48", some "org.example.App"⟩
        [(⟨0, 0, "", 250, 7⟩ : Scene Nat), ⟨1, 2, "old", 9, 8⟩]).events.length =
        [(⟨0, 0, "", 250, 7⟩ : Scene Nat), ⟨1, 2, "old", 9, 8⟩].length ∧
      ∀ ev ∈ (runScript ⟨some "48", some "org.example.App"⟩
          [(⟨0, 0, "", 250, 7⟩ : Scene Nat), ⟨1, 2, "old", 9, 8⟩]).events,
        ev.filepath = computePath "48" "org.example.App") :=
  ⟨by decide, c5_render_per_scene "48" "org.example.App" 48 (by decide)
    [(⟨0, 0, "", 250, 7⟩ : Scene Nat), ⟨1, 2, "old", 9, 8⟩]⟩

/-- C6: with `XY` parsing as a positive integer and `APP_ID` present,
every render invocation sees `resolution_x` and `resolution_y` both set
to the parsed `XY` value (square resolution), and every scene ends the
run with that resolution. -/
theorem c6_square_resolution (xy app : String) (n : Int)
    (hxy : pyInt xy = some n) (hn : 0 < n) {α : Type}
    (scenes : List (Scene α)) :
    (∀ ev ∈ (runScript ⟨some xy, some app⟩ scenes).events,
      ev.resolution_x = n ∧ ev.resolution_y = n) ∧
    (∀ sc ∈ (runScript ⟨some xy, some app⟩ scenes).scenes,
      sc.resolution_x = n ∧ sc.resolution_y = n) := by
  have h := runScenes_valid (α := α) xy app n hxy scenes
  constructor
  · intro ev hev
    simp only [runScript, h, RunResult.events, List.mem_map] at hev
    obtain ⟨b, _, rfl⟩ := hev
    exact ⟨rfl, rfl⟩
  · intro sc hsc
    simp only [runScript, h, RunResult.scenes, List.mem_map] at hsc
    obtain ⟨b, _, rfl⟩ := hsc
    exact ⟨rfl, rfl⟩

/-- Witness for C6 at `XY = "48"`, `APP_ID = "org.example.App"` on a
one-scene collection. -/
theorem c6_square_resolution_witness :
    pyInt "48" = some 48 ∧ (0 : Int) < 48 ∧
    ((∀ ev ∈ (runScript ⟨some "48", some "org.example.App"⟩
        [(⟨0, 0, "", 250, 7⟩ : Scene Nat)]).events,
      ev.resolution_x = 48 ∧ ev.resolution_y = 48) ∧
    (∀ sc ∈ (runScript ⟨some "48", some "org.example.App"⟩
        [(⟨0, 0, "", 250, 7⟩ : Scene Nat)]).scenes,
      sc.resolution_x = 48 ∧ sc.resolution_y = 48)) :=
  ⟨by decide, by decide, c6_square_resolution "48" "org.example.App" 48
    (by decide) (by decide) [(⟨0, 0, "", 250, 7⟩ : Scene Nat)]⟩

/-- C7: every render invocation the script ever performs, under any
environment and any scene collection, sees `frame_end = 1`: the
assignment `scene.frame_end = 1` precedes the render call in the loop
body. -/
theorem c7_single_frame (env : Env) {α : Type} (scenes : List (Scene α)) :
    ∀ ev ∈ (runScript env scenes).events, ev.frame_end = 1 := by
  cases hXY : env.XY with
  | none => simp [runScript, hXY, RunResult.events]
  | some xy =>
    cases hp : pyInt xy with
    | none =>
        cases scenes with
        | nil => simp [runScript, hXY, runScenes, RunResult.events]
        | cons sc rest =>
            simp [runScript, hXY, runScenes_valueError xy hp,
              RunResult.events]
    | some n =>
        cases hApp : env.APP_ID with
        | none =>
            cases scenes with
            | nil => simp [runScript, hXY, runScenes, RunResult.events]
            | cons sc rest =>
                simp [runScript, hXY, hApp, runScenes_keyError xy n hp,
                  RunResult.events]
        | some app =>
            intro ev hev
            simp only [runScript, hXY, hApp,
              runScenes_valid xy app n hp, RunResult.events,
              List.mem_map] at hev
            obtain ⟨b, _, rfl⟩ := hev
            rfl

/-- Witness for C7 at `XY = "48"`, `APP_ID = "a"` on a one-scene
collection, applied to the single render event of that run. -/
theorem c7_single_frame_witness :
    eventOf 48 (computePath "48" "a") ∈
      (runScript (⟨some "48", some "a"⟩ : Env)
        [(⟨0, 0, "", 250, 7⟩ : Scene Nat)]).events ∧
    (eventOf 48 (computePath "48" "a")).frame_end = 1 :=
  ⟨by decide, c7_single_frame ⟨some "48", some "a"⟩
    [(⟨0, 0, "", 250, 7⟩ : Scene Nat)]
    (eventOf 48 (computePath "48" "a")) (by decide)⟩

/-- C8: under any environment and any scene collection the script only
mutates the four fields `resolution_x`, `resolution_y`, `filepath`,
`frame_end`: the host state abstracted by `other` is unchanged on every
scene, and the collection keeps the same length and order (no scene is
created or destroyed), whether the run ends normally or in an
exception. -/
theorem c8_frame_effect (env : Env) {α : Type} (scenes : List (Scene α)) :
    (runScript env scenes).scenes.length = scenes.length ∧
    List.Forall₂ (fun a b => a.other = b.other)
      (runScript env scenes).scenes scenes := by
  cases hXY : env.XY with
  | none =>
      simp only [runScript, hXY, RunResult.scenes]
      exact ⟨trivial, (List.forall₂_same).mpr fun x _ => rfl⟩
  | some xy =>
    cases hp : pyInt xy with
    | none =>
        cases scenes with
        | nil =>
            simp only [runScript, hXY, runScenes, RunResult.scenes]
            exact ⟨trivial, List.Forall₂.nil⟩
        | cons sc rest =>
            simp only [runScript, hXY, runScenes_valueError xy hp,
              RunResult.scenes]
            exact ⟨trivial, (List.forall₂_same).mpr fun x _ => rfl⟩
    | some n =>
        cases hApp : env.APP_ID with
        | none =>
            cases scenes with
            | nil =>
                simp only [runScript, hXY, runScenes, RunResult.scenes]
                exact ⟨trivial, List.Forall₂.nil⟩
            | cons sc rest =>
                simp only [runScript, hXY, hApp,
                  runScenes_keyError xy n hp, RunResult.scenes]
                exact ⟨by simp, List.Forall₂.cons rfl
                  ((List.forall₂_same).mpr fun x _ => rfl)⟩
        | some app =>
            simp only [runScript, hXY, hApp,
              runScenes_valid xy app n hp, RunResult.scenes]
            refine ⟨List.length_map _ _, ?_⟩
            rw [List.forall₂_map_left_iff]
            exact (List.forall₂_same).mpr fun x _ => rfl

/-- C9: with `XY` present (numeric or not) and an empty host scene
collection, the loop body never runs: no scene is mutated, no render is
invoked, and the script terminates normally, whether or not `APP_ID` is
set. -/
theorem c9_empty_collection (xy : String) (appId : Option String)
    (α : Type) :
    runScript ⟨some xy, appId⟩ ([] : List (Scene α)) = .ok [] [] := rfl

/-- C10: with `XY` numeric, `APP_ID` absent, and a non-empty scene
collection, the script fails with `KeyError` on `os.environ['APP_ID']`
after the first scene's `resolution_x` and `resolution_y` have already
been set to the parsed `XY` value, while its `filepath` and `frame_end`
(and every later scene) are unchanged and no render was invoked. -/
theorem c10_partial_mutation (xy : String) (n : Int)
    (hxy : pyInt xy = some n) {α : Type} (sc : Scene α)
    (rest : List (Scene α)) :
    runScript ⟨some xy, none⟩ (sc :: rest) =
      .err (.keyError "APP_ID")
        ({ sc with resolution_x := n, resolution_y := n } :: rest) [] := by
  rw [runScript]
  exact runScenes_keyError xy n hxy sc rest

/-- Witness for C10 at `XY = "48"` on a one-scene collection with a
distinctive prior state. -/
theorem c10_partial_mutation_witness :
    pyInt "48" = some 48 ∧
    runScript ⟨some "48", none⟩ [(⟨3, 4, "orig", 250, 7⟩ : Scene Nat)] =
      .err (.keyError "APP_ID")
        [(⟨48, 48, "orig", 250, 7⟩ : Scene Nat)] [] :=
  ⟨by decide, c10_partial_mutation "48" 48 (by decide)
    (⟨3, 4, "orig", 250, 7⟩ : Scene Nat) []⟩

end RenderImage
